import Mathlib

/-!
# Chatbot SAV front-end glue (`static/js/main.js`)

A shallow embedding of the utilities exported as `window.ChatbotSAV`:
the `ApiClient` fetch wrapper, `debounce`, `throttle`, `showNotification`,
and the sidebar and form listeners installed by `initializeApp`.

Browser facilities the script calls but does not define (`fetch`,
`JSON.parse`, `JSON.stringify`, the timer queue, the DOM) are explicit
arguments or explicit state.
-/

namespace ChatbotSAV

/-! ## JavaScript values and objects -/

/-- JavaScript data as far as the script handles it. -/
inductive JsValue where
  | undefined
  | null
  | bool (b : Bool)
  | num (n : Int)
  | str (s : String)
  | arr (items : List JsValue)
  | obj (fields : List (String × JsValue))

/-- An object literal: its own properties, the first entry for a key being
the property's value. -/
abbrev JsObject := List (String × JsValue)

/-- Property read `o[key]`; `none` when the object has no such own property. -/
def JsObject.get (o : JsObject) (key : String) : Option JsValue :=
  match o with
  | [] => none
  | (k, v) :: rest => if k = key then some v else JsObject.get rest key

/-- Property write `o[key] = value`: an existing property keeps its place, a new one
goes last. -/
def JsObject.set (o : JsObject) (key : String) (value : JsValue) : JsObject :=
  match o with
  | [] => [(key, value)]
  | (k, v) :: rest =>
    if k = key then (k, value) :: rest else (k, v) :: JsObject.set rest key value

/-- Copies every own property of `source` onto `target`, in order, each with the value
`source[key]`: what one `...source` in an object literal does. -/
def copyDataProperties (target source : JsObject) : JsObject :=
  source.foldl
    (fun acc entry =>
      match source.get entry.1 with
      | some value => acc.set entry.1 value
      | none => acc)
    target

/-- Object spread of two objects, `{ ...first, ...second }`. -/
def spread (first second : JsObject) : JsObject :=
  copyDataProperties (copyDataProperties [] first) second

/-- A thrown value: an `Error`-like object with its `name` and `message`. -/
structure JsError where
  name : String
  message : String
deriving DecidableEq, Repr

/-- The value built by `new Error(message)`. -/
def newError (message : String) : JsError :=
  { name := "Error", message := message }

/-- `String.prototype.includes` on character lists. -/
def includesChars : List Char → List Char → Bool
  | [], needle => needle.isEmpty
  | c :: cs, needle => needle.isPrefixOf (c :: cs) || includesChars cs needle

/-- `haystack.includes(needle)`. -/
def includes (haystack needle : String) : Bool :=
  includesChars haystack.data needle.data

/-- Truthiness of a value that is `null` or a string, as in `contentType && ...`. -/
def truthy : Option String → Bool
  | none => false
  | some s => s != ""

/-! ## Effectful runs -/

/-- The observable actions of one `ApiClient` call. -/
inductive Effect where
  | fetch (url : String) (config : JsObject)
  | readJson
  | readText
  | consoleError (label : String) (error : JsError)

/-- Whether an effect decodes the response body. -/
def Effect.isDecode : Effect → Bool
  | Effect.readJson => true
  | Effect.readText => true
  | _ => false

/-- The settled state of an async function: it returned a value or rejected with
a thrown value, having performed `effects` in order. -/
structure Run (α : Type) where
  outcome : Except JsError α
  effects : List Effect

/-- A run that returns `a`. -/
def Run.ret {α : Type} (a : α) : Run α :=
  { outcome := Except.ok a, effects := [] }

/-- The statement `throw e`. -/
def Run.throw {α : Type} (e : JsError) : Run α :=
  { outcome := Except.error e, effects := [] }

/-- Sequencing: the continuation runs only if the first part returned. -/
def Run.andThen {α β : Type} (r : Run α) (k : α → Run β) : Run β :=
  match r.outcome with
  | Except.error e => { outcome := Except.error e, effects := r.effects }
  | Except.ok a => { outcome := (k a).outcome, effects := r.effects ++ (k a).effects }

/-- The statement `try { body } catch (error) { handler(error) }`. -/
def Run.tryCatch {α : Type} (body : Run α) (handler : JsError → Run α) : Run α :=
  match body.outcome with
  | Except.ok a => { outcome := Except.ok a, effects := body.effects }
  | Except.error e =>
      { outcome := (handler e).outcome, effects := body.effects ++ (handler e).effects }

/-- Performing an effect whose settled result is `result` (`await effect`). -/
def Run.await {α : Type} (effect : Effect) (result : Except JsError α) : Run α :=
  { outcome := result, effects := [effect] }

/-- Performing an effect that yields nothing, such as `console.error(...)`. -/
def Run.emit (effect : Effect) : Run Unit :=
  { outcome := Except.ok (), effects := [effect] }

instance : Monad Run where
  pure := Run.ret
  bind := Run.andThen

/-! ## The browser as seen by `ApiClient` -/

/-- A `Response` delivered by `fetch`. -/
structure Response where
  ok : Bool
  status : Nat
  headers : String → Option String
  body : String

/-- The browser services `ApiClient` relies on: `fetch` with its settled result,
`JSON.parse`, which throws on text that is not JSON, and `JSON.stringify`, which on the
tree-shaped data of `JsValue` always returns (a string, or `undefined`). -/
structure Browser where
  fetch : String → JsObject → Except JsError Response
  jsonParse : String → Except JsError JsValue
  jsonStringify : JsValue → JsValue

namespace ApiClient

/-- The `defaultOptions` literal of `request`. -/
def defaultOptions : JsObject :=
  [("headers", JsValue.obj [("Content-Type", JsValue.str "application/json")])]

/-- The `config` handed to `fetch`: `{ ...defaultOptions, ...options }`. -/
def config (options : JsObject) : JsObject :=
  spread defaultOptions options

/-- Whether `contentType && contentType.includes("application/json")` holds for the
value `response.headers.get("content-type")` returned (`none` is `null`). -/
def declaresJson (contentType : Option String) : Bool :=
  truthy contentType &&
    (match contentType with
     | some value => includes value "application/json"
     | none => false)

/-- The `try` block of `request`. -/
def requestTry (env : Browser) (url : String) (options : JsObject) : Run JsValue := do
  let response ← Run.await (Effect.fetch url (config options)) (env.fetch url (config options))
  if !response.ok then
    Run.throw (newError ("HTTP error! status: " ++ toString response.status))
  else
    let contentType := response.headers "content-type"
    if declaresJson contentType then
      Run.await Effect.readJson (env.jsonParse response.body)
    else
      Run.await Effect.readText (Except.ok (JsValue.str response.body))

/-- The `catch (error)` block of `request`. -/
def requestCatch (error : JsError) : Run JsValue := do
  let _ ← Run.emit (Effect.consoleError "Erreur API:" error)
  Run.throw error

/-- Embedding of `ApiClient.request(url, options)`. -/
def request (env : Browser) (url : String) (options : JsObject) : Run JsValue :=
  Run.tryCatch (requestTry env url options) requestCatch

/-- Embedding of `ApiClient.get(url)`. -/
def get (env : Browser) (url : String) : Run JsValue :=
  request env url [("method", JsValue.str "GET")]

/-- Embedding of `ApiClient.post(url, data)`. -/
def post (env : Browser) (url : String) (data : JsValue) : Run JsValue :=
  request env url [("method", JsValue.str "POST"), ("body", env.jsonStringify data)]

/-- Embedding of `ApiClient.put(url, data)`. -/
def put (env : Browser) (url : String) (data : JsValue) : Run JsValue :=
  request env url [("method", JsValue.str "PUT"), ("body", env.jsonStringify data)]

/-- Embedding of `ApiClient.delete(url)`. -/
def delete (env : Browser) (url : String) : Run JsValue :=
  request env url [("method", JsValue.str "DELETE")]

end ApiClient

/-! ## Timers on a virtual clock

`setTimeout` and `clearTimeout` act on a queue of pending timers; time is counted in
milliseconds and a timer set at time `t` with delay `d` runs at time `t + d`. -/

/-- A pending timer: its handle, the time it is due, and what it will run. -/
structure Timer (κ : Type) where
  id : Nat
  due : Nat
  callback : κ

/-- The event loop around a piece of script state `σ`; `κ` names the callbacks the
script hands to `setTimeout`. -/
structure World (σ κ : Type) where
  now : Nat
  nextTimerId : Nat
  pending : List (Timer κ)
  state : σ

/-- Queue insertion: timers are kept in firing order, a new timer going behind those
already due at the same time or earlier. -/
def insertTimer {κ : Type} (t : Timer κ) : List (Timer κ) → List (Timer κ)
  | [] => [t]
  | u :: rest => if u.due ≤ t.due then u :: insertTimer t rest else t :: u :: rest

/-- The call `setTimeout(callback, delay)`: returns the new handle. -/
def setTimeout {σ κ : Type} (callback : κ) (delay : Nat) (w : World σ κ) : Nat × World σ κ :=
  (w.nextTimerId,
    { w with
      nextTimerId := w.nextTimerId + 1
      pending := insertTimer { id := w.nextTimerId, due := w.now + delay, callback := callback }
        w.pending })

/-- The call `clearTimeout(handle)`; `none` is `undefined`, for which nothing happens. -/
def clearTimeout {σ κ : Type} (handle : Option Nat) (w : World σ κ) : World σ κ :=
  match handle with
  | none => w
  | some h => { w with pending := w.pending.filter fun t => t.id != h }

/-- Runs the timers due up to `horizon`, earliest first, each at its due time. `fuel`
bounds the number of callbacks run. -/
def runDue {σ κ : Type} (fire : κ → World σ κ → World σ κ) :
    Nat → Nat → World σ κ → World σ κ
  | 0, _, w => w
  | fuel + 1, horizon, w =>
    match w.pending with
    | [] => w
    | t :: rest =>
      if t.due ≤ horizon then
        runDue fire fuel horizon (fire t.callback { w with now := max w.now t.due, pending := rest })
      else w

/-- Lets the clock reach `horizon`, running what falls due on the way. The callbacks of
this script set no timers, so one step per pending timer is enough. -/
def advanceTo {σ κ : Type} (fire : κ → World σ κ → World σ κ) (horizon : Nat)
    (w : World σ κ) : World σ κ :=
  let w1 := runDue fire w.pending.length horizon w
  { w1 with now := max w1.now horizon }

/-! ## `debounce` -/

/-- The closure state of `debounce(func, wait)`: the variable `timeout` (`none` is
`undefined`) and the calls of `func` made so far, each with its time and arguments.
`func` is taken to return normally. -/
structure DebounceState (α : Type) where
  timeout : Option Nat
  invoked : List (Nat × α)

namespace debounce

/-- The closure `later` created by a call with arguments `args`. -/
def later {α : Type} (args : α) (w : World (DebounceState α) α) : World (DebounceState α) α :=
  let w1 := clearTimeout w.state.timeout w
  { w1 with state := { w1.state with invoked := w1.state.invoked ++ [(w1.now, args)] } }

/-- The function `executedFunction(...args)` returned by `debounce(func, wait)`. -/
def executedFunction {α : Type} (wait : Nat) (args : α) (w : World (DebounceState α) α) :
    World (DebounceState α) α :=
  let w1 := clearTimeout w.state.timeout w
  let r := setTimeout args wait w1
  { r.2 with state := { r.2.state with timeout := some r.1 } }

/-- The world right after `debounce(func, wait)` returned, at time `now`. -/
def start (α : Type) (now : Nat) : World (DebounceState α) α :=
  { now := now, nextTimerId := 1, pending := [], state := { timeout := none, invoked := [] } }

/-- A series of calls of the debounced function, each given with the time it is made. -/
def session {α : Type} (wait : Nat) (calls : List (Nat × α)) (w : World (DebounceState α) α) :
    World (DebounceState α) α :=
  calls.foldl (fun v c => executedFunction wait c.2 (advanceTo later c.1 v)) w

end debounce

/-- Calls whose times never decrease and stay less than `gap` behind the previous one. -/
def closelySpaced {α : Type} (gap : Nat) : List (Nat × α) → Prop
  | [] => True
  | [_] => True
  | c :: d :: rest => c.1 ≤ d.1 ∧ d.1 < c.1 + gap ∧ closelySpaced gap (d :: rest)

/-! ## `throttle` -/

/-- The closure state of `throttle(func, limit)`: the flag `inThrottle` (`undefined` counts
as `false`) and the calls of `func` made so far, each with its time, `this` and
arguments. `func` is taken to return normally. -/
structure ThrottleState (θ α : Type) where
  inThrottle : Bool
  invoked : List (Nat × θ × α)

namespace throttle

/-- The timer callback `() => (inThrottle = false)`. -/
def reset {θ α : Type} (_ : Unit) (w : World (ThrottleState θ α) Unit) :
    World (ThrottleState θ α) Unit :=
  { w with state := { w.state with inThrottle := false } }

/-- The function returned by `throttle(func, limit)`, called with `this = context`. -/
def wrapper {θ α : Type} (limit : Nat) (context : θ) (args : α)
    (w : World (ThrottleState θ α) Unit) : World (ThrottleState θ α) Unit :=
  if !w.state.inThrottle then
    let w1 := { w with state := { w.state with invoked := w.state.invoked ++ [(w.now, context, args)] } }
    let w2 := { w1 with state := { w1.state with inThrottle := true } }
    (setTimeout () limit w2).2
  else w

/-- The world right after `throttle(func, limit)` returned, at time `now`. -/
def start (θ α : Type) (now : Nat) : World (ThrottleState θ α) Unit :=
  { now := now, nextTimerId := 1, pending := [], state := { inThrottle := false, invoked := [] } }

/-- A series of calls of the throttled function, each given with the time it is made. -/
def session {θ α : Type} (limit : Nat) (calls : List (Nat × θ × α))
    (w : World (ThrottleState θ α) Unit) : World (ThrottleState θ α) Unit :=
  calls.foldl (fun v c => wrapper limit c.2.1 c.2.2 (advanceTo reset c.1 v)) w

end throttle

/-! ## Class lists -/

/-- The method `classList.contains(token)`. -/
def classContains (classes : List String) (token : String) : Bool :=
  classes.contains token

/-- The method `classList.add(token)`. -/
def classAdd (classes : List String) (token : String) : List String :=
  if classes.contains token then classes else classes ++ [token]

/-- The method `classList.remove(token)`. -/
def classRemove (classes : List String) (token : String) : List String :=
  classes.filter fun c => c != token

/-- The method `classList.toggle(token)`. -/
def classToggle (classes : List String) (token : String) : List String :=
  if classes.contains token then classRemove classes token else classes ++ [token]

/-! ## `showNotification` -/

/-- An element as far as `showNotification` sets it up; `id` stands for its identity. -/
structure Element where
  id : Nat
  className : String
  cssText : String
  innerHTML : String
deriving DecidableEq, Repr

/-- The document: the children of `document.body` in order, and the identity the next
created element gets. -/
structure Page where
  nextNode : Nat
  body : List Element
deriving DecidableEq, Repr

/-- Whether the element `node` has a parent (`alertDiv.parentNode` is not `null`). -/
def Page.hasParent (p : Page) (node : Nat) : Bool :=
  p.body.any fun e => e.id == node

/-- The method `remove()` on the element `node`: it leaves its parent's children. -/
def Page.remove (p : Page) (node : Nat) : Page :=
  { p with body := p.body.filter fun e => e.id != node }

/-- Every element in the document was created before `nextNode`. -/
def Page.wellFormed (p : Page) : Prop :=
  ∀ e ∈ p.body, e.id < p.nextNode

/-- The element `alertDiv` as `showNotification(message, type)` sets it up. -/
def alertElement (node : Nat) (message type : String) : Element :=
  { id := node
    className := "alert alert-" ++ type ++ " alert-dismissible fade show position-fixed"
    cssText := "top: 20px; right: 20px; z-index: 9999; min-width: 300px;"
    innerHTML := "\n        " ++ message ++
      "\n        <button type=\"button\" class=\"btn-close\" data-bs-dismiss=\"alert\" aria-label=\"Close\"></button>\n    " }

/-- The timer callback of `showNotification` for the element `node`:
`if (alertDiv.parentNode) alertDiv.remove()`. -/
def autoRemove (node : Nat) (w : World Page Nat) : World Page Nat :=
  if w.state.hasParent node then { w with state := w.state.remove node } else w

/-- Embedding of `showNotification(message, type = "info")`; `none` is an omitted
`type`. -/
def showNotification (message : String) (type : Option String) (w : World Page Nat) :
    World Page Nat :=
  let alertDiv := alertElement w.state.nextNode message (type.getD "info")
  let w1 := { w with state := { nextNode := w.state.nextNode + 1, body := w.state.body ++ [alertDiv] } }
  (setTimeout alertDiv.id 5000 w1).2

/-- Manual dismissal of the notification `node` through its close button, which takes
the element out of the document. -/
def dismiss (node : Nat) (w : World Page Nat) : World Page Nat :=
  { w with state := w.state.remove node }

/-- A page with two elements in its body, at time 1000 ms, with no timer pending. -/
def sampleWorld : World Page Nat :=
  { now := 1000
    nextTimerId := 1
    pending := []
    state :=
      { nextNode := 3
        body :=
          [{ id := 1, className := "navbar", cssText := "", innerHTML := "" },
           { id := 2, className := "container", cssText := "", innerHTML := "" }] } }

/-! ## `initSidebar` -/

/-- What `initSidebar` sees of the page: whether `#sidebarToggle` exists, the class list
of `#sidebar` if it exists, and `window.innerWidth`. -/
structure SidebarPage where
  sidebarToggle : Bool
  sidebar : Option (List String)
  innerWidth : Nat
deriving DecidableEq, Repr

/-- The three listeners of `initSidebar`. -/
inductive SidebarListener where
  | toggleClick
  | documentClick
  | windowResize
deriving DecidableEq, Repr

/-- An event reaching the page. A click carries `sidebar.contains(event.target)` and
`sidebarToggle.contains(event.target)`; a resize carries the new `window.innerWidth`. -/
inductive PageEvent where
  | click (inSidebar inToggle : Bool)
  | resize (width : Nat)
deriving DecidableEq, Repr

/-- Embedding of `initSidebar()`: the listeners it installs, in order. -/
def initSidebar (p : SidebarPage) : List SidebarListener :=
  if p.sidebarToggle && p.sidebar.isSome then
    [SidebarListener.toggleClick, SidebarListener.documentClick, SidebarListener.windowResize]
  else []

/-- Whether the sidebar is in the "show" state. -/
def SidebarPage.shown (p : SidebarPage) : Bool :=
  match p.sidebar with
  | some classes => classContains classes "show"
  | none => false

/-- Applies a class-list operation to `#sidebar`. -/
def SidebarPage.onSidebar (p : SidebarPage) (f : List String → List String) : SidebarPage :=
  { p with sidebar := p.sidebar.map f }

/-- One listener of `initSidebar` receiving an event. The listener on the toggle runs for
clicks inside the toggle, the one on `document` for every click, the one on `window` for
every resize. -/
def SidebarListener.handle (l : SidebarListener) (ev : PageEvent) (p : SidebarPage) :
    SidebarPage :=
  match l, ev with
  | SidebarListener.toggleClick, PageEvent.click _ true =>
    p.onSidebar fun classes => classToggle classes "show"
  | SidebarListener.documentClick, PageEvent.click inSidebar inToggle =>
    if p.innerWidth ≤ 768 then
      if !inSidebar && !inToggle then p.onSidebar fun classes => classRemove classes "show"
      else p
    else p
  | SidebarListener.windowResize, PageEvent.resize _ =>
    if p.innerWidth > 768 then p.onSidebar fun classes => classRemove classes "show" else p
  | _, _ => p

/-- Delivery of an event: a resize first updates `window.innerWidth`; then the installed
listeners run, the one on the toggle before the one on `document` (bubbling order). -/
def dispatch (listeners : List SidebarListener) (ev : PageEvent) (p : SidebarPage) :
    SidebarPage :=
  let p1 := match ev with
    | PageEvent.resize width => { p with innerWidth := width }
    | PageEvent.click _ _ => p
  listeners.foldl (fun q l => l.handle ev q) p1

/-- A page holding both `#sidebarToggle` and `#sidebar`, the latter with the given
classes, seen at the given viewport width. -/
def samplePage (classes : List String) (width : Nat) : SidebarPage :=
  { sidebarToggle := true, sidebar := some classes, innerWidth := width }

/-! ## `initForms` -/

/-- A `submit` event: whether its default action was prevented and its propagation
stopped. -/
structure SubmitEvent where
  defaultPrevented : Bool
  propagationStopped : Bool
deriving DecidableEq, Repr

/-- A form: its class list and the result `checkValidity()` gives. -/
structure Form where
  classList : List String
  valid : Bool
deriving DecidableEq, Repr

/-- The `submit` listener `initForms` installs on a form. -/
def submitListener (form : Form) (event : SubmitEvent) : Form × SubmitEvent :=
  let event1 :=
    if !form.valid then
      { { event with defaultPrevented := true } with propagationStopped := true }
    else event
  ({ form with classList := classAdd form.classList "was-validated" }, event1)

/-- Whether `document.querySelectorAll(".needs-validation")` selects the form, that is,
whether `initForms` installs the listener on it. -/
def needsValidation (form : Form) : Bool :=
  classContains form.classList "needs-validation"

/-- A `submit` event on a form after `initForms()` ran. -/
def submit (form : Form) (event : SubmitEvent) : Form × SubmitEvent :=
  if needsValidation form then submitListener form event else (form, event)

/-! ## Sample servers -/

/-- A browser whose `fetch` always settles as `answer`, with a `JSON.parse` and a
`JSON.stringify` that know the two texts of the ticket scenario. -/
def sampleBrowser (answer : Except JsError Response) : Browser :=
  { fetch := fun _ _ => answer
    jsonParse := fun text =>
      if text = "\x7b\"id\": 1\x7d" then Except.ok (JsValue.obj [("id", JsValue.num 1)])
      else Except.error { name := "SyntaxError", message := "Unexpected token" }
    jsonStringify := fun _ => JsValue.str "\x7b\"title\":\"X\"\x7d" }

/-- A response with the given status line, content type and body. -/
def sampleResponse (ok : Bool) (status : Nat) (contentType : Option String) (body : String) :
    Response :=
  { ok := ok
    status := status
    headers := fun name => if name = "content-type" then contentType else none
    body := body }

/-! ## Theorems -/

section ApiClientFacts
open ApiClient

theorem includesChars_append_right (a b : List Char) : includesChars (a ++ b) b = true := by
  induction a with
  | nil =>
    cases b with
    | nil => rfl
    | cons c cs => simp [includesChars]
  | cons c cs ih => simp [includesChars, ih]

theorem includesChars_iff (h n : List Char) : includesChars h n = true ↔ n <:+: h := by
  induction h with
  | nil => cases n <;> simp [includesChars]
  | cons c cs ih =>
    simp only [includesChars, Bool.or_eq_true, ih, List.isPrefixOf_iff_prefix]
    rw [List.infix_cons_iff]

theorem includes_append_right (a b : String) : includes (a ++ b) b = true := by
  simp [includes, includesChars_append_right]

theorem get_set (o : JsObject) (key key2 : String) (value : JsValue) :
    (o.set key value).get key2 = if key = key2 then some value else o.get key2 := by
  induction o with
  | nil => simp [JsObject.set, JsObject.get]
  | cons kv rest ih =>
    obtain ⟨k, v⟩ := kv
    by_cases h : k = key
    · subst h
      by_cases h2 : k = key2 <;> simp [JsObject.set, JsObject.get, h2]
    · by_cases h2 : k = key2
      · subst h2
        have h3 : ¬ key = k := fun h4 => h h4.symm
        simp [JsObject.set, JsObject.get, h, h3]
      · simp [JsObject.set, JsObject.get, h, h2, ih]

theorem get_eq_none_of_not_mem (o : JsObject) (key : String)
    (h : ∀ entry ∈ o, entry.1 ≠ key) : o.get key = none := by
  induction o with
  | nil => rfl
  | cons kv rest ih =>
    obtain ⟨k, v⟩ := kv
    have hk : k ≠ key := h (k, v) (List.mem_cons_self _ _)
    simp only [JsObject.get, hk, if_false]
    exact ih fun entry he => h entry (List.mem_cons_of_mem _ he)

theorem get_isSome_of_mem (o : JsObject) (entry : String × JsValue) (h : entry ∈ o) :
    ∃ value, o.get entry.1 = some value := by
  induction o with
  | nil => cases h
  | cons kv rest ih =>
    obtain ⟨k, v⟩ := kv
    by_cases hk : k = entry.1
    · exact ⟨v, by simp [JsObject.get, hk]⟩
    · have : entry ∈ rest := by
        rcases List.mem_cons.1 h with h1 | h1
        · exact absurd (by rw [h1]) hk
        · exact h1
      obtain ⟨value, hv⟩ := ih this
      exact ⟨value, by simp [JsObject.get, hk, hv]⟩

theorem get_foldl_copy (source : JsObject) (key : String) :
    ∀ (entries : List (String × JsValue)) (target : JsObject),
      (∀ entry ∈ entries, entry ∈ source) →
      (entries.foldl
        (fun acc entry =>
          match source.get entry.1 with
          | some value => acc.set entry.1 value
          | none => acc)
        target).get key =
        if ∃ entry ∈ entries, entry.1 = key then source.get key else target.get key := by
  intro entries
  induction entries with
  | nil => intro target _; simp
  | cons e rest ih =>
    intro target hsub
    have hrest : ∀ entry ∈ rest, entry ∈ source := fun entry he =>
      hsub entry (List.mem_cons_of_mem _ he)
    obtain ⟨value, hv⟩ := get_isSome_of_mem source e (hsub e (List.mem_cons_self _ _))
    simp only [List.foldl_cons, hv]
    rw [ih _ hrest]
    by_cases h1 : ∃ entry ∈ rest, entry.1 = key
    · have h2 : ∃ entry ∈ e :: rest, entry.1 = key := by
        obtain ⟨entry, he, hk⟩ := h1
        exact ⟨entry, List.mem_cons_of_mem _ he, hk⟩
      simp [h1, h2]
    · by_cases h3 : e.1 = key
      · have h2 : ∃ entry ∈ e :: rest, entry.1 = key := ⟨e, List.mem_cons_self _ _, h3⟩
        rw [if_neg h1, if_pos h2, get_set, if_pos h3, ← hv, h3]
      · have h2 : ¬ ∃ entry ∈ e :: rest, entry.1 = key := by
          rintro ⟨entry, he, hk⟩
          rcases List.mem_cons.1 he with h4 | h4
          · exact h3 (by rw [← h4]; exact hk)
          · exact h1 ⟨entry, h4, hk⟩
        rw [if_neg h1, if_neg h2, get_set, if_neg h3]

theorem get_copyDataProperties (target source : JsObject) (key : String) :
    (copyDataProperties target source).get key =
      (source.get key).orElse fun _ => target.get key := by
  rw [copyDataProperties, get_foldl_copy source key source target fun _ h => h]
  by_cases h : ∃ entry ∈ source, entry.1 = key
  · obtain ⟨entry, he, hk⟩ := h
    obtain ⟨value, hv⟩ := get_isSome_of_mem source entry he
    rw [hk] at hv
    rw [if_pos ⟨entry, he, hk⟩, hv]
    rfl
  · have hnone : source.get key = none :=
      get_eq_none_of_not_mem source key fun entry he hk => h ⟨entry, he, hk⟩
    rw [if_neg h, hnone]
    rfl

theorem get_spread (first second : JsObject) (key : String) :
    (spread first second).get key = (second.get key).orElse fun _ => first.get key := by
  rw [spread, get_copyDataProperties, get_copyDataProperties]
  cases second.get key with
  | some v => rfl
  | none =>
    cases first.get key with
    | some v => rfl
    | none => rfl

theorem request_of_http_error (env : Browser) (url : String) (options : JsObject)
    (resp : Response) (hfetch : env.fetch url (config options) = Except.ok resp)
    (hok : resp.ok = false) :
    request env url options =
      { outcome := Except.error (newError ("HTTP error! status: " ++ toString resp.status)),
        effects := [Effect.fetch url (config options),
          Effect.consoleError "Erreur API:"
            (newError ("HTTP error! status: " ++ toString resp.status))] } := by
  simp [request, requestTry, requestCatch, Run.tryCatch, Run.andThen, Run.await, Run.emit,
    Run.throw, bind, hfetch, hok]

theorem declaresJson_iff (contentType : Option String) :
    declaresJson contentType = true ↔
      ∃ value, contentType = some value ∧ includes value "application/json" = true := by
  cases contentType with
  | none => simp [declaresJson, truthy]
  | some value =>
    simp only [declaresJson, truthy, Bool.and_eq_true, Option.some.injEq, exists_eq_left']
    constructor
    · exact fun h => h.2
    · intro h
      refine ⟨?_, h⟩
      by_cases hv : value = ""
      · subst hv
        simp [includes, includesChars] at h
      · simpa using hv

theorem request_of_ok (env : Browser) (url : String) (options : JsObject)
    (resp : Response) (hfetch : env.fetch url (config options) = Except.ok resp)
    (hok : resp.ok = true) :
    requestTry env url options =
      if declaresJson (resp.headers "content-type") then
        { outcome := env.jsonParse resp.body,
          effects := [Effect.fetch url (config options), Effect.readJson] }
      else
        { outcome := Except.ok (JsValue.str resp.body),
          effects := [Effect.fetch url (config options), Effect.readText] } := by
  by_cases h : declaresJson (resp.headers "content-type") = true <;>
    simp [requestTry, Run.andThen, Run.await, bind, hfetch, hok, h]

theorem tryCatch_requestCatch_outcome (body : Run JsValue) :
    (Run.tryCatch body requestCatch).outcome = body.outcome := by
  cases hb : body.outcome <;>
    simp [Run.tryCatch, requestCatch, Run.andThen, Run.emit, Run.throw, bind, hb]

theorem request_of_fetch_error (env : Browser) (url : String) (options : JsObject)
    (e : JsError) (hfetch : env.fetch url (config options) = Except.error e) :
    request env url options =
      { outcome := Except.error e,
        effects := [Effect.fetch url (config options), Effect.consoleError "Erreur API:" e] } := by
  simp [request, requestTry, requestCatch, Run.tryCatch, Run.andThen, Run.await, Run.emit,
    Run.throw, bind, hfetch]

theorem requestTry_effects (env : Browser) (url : String) (options : JsObject) :
    ∃ rest, (requestTry env url options).effects = Effect.fetch url (config options) :: rest := by
  cases hf : env.fetch url (config options) with
  | error e => exact ⟨[], by simp [requestTry, Run.andThen, Run.await, bind, hf]⟩
  | ok resp =>
    cases hok : resp.ok with
    | false =>
      exact ⟨[], by simp [requestTry, Run.andThen, Run.await, Run.throw, bind, hf, hok]⟩
    | true =>
      rw [request_of_ok env url options resp hf hok]
      split <;> exact ⟨_, rfl⟩

theorem request_effects_head (env : Browser) (url : String) (options : JsObject) :
    (request env url options).effects.head? = some (Effect.fetch url (config options)) := by
  obtain ⟨rest, hrest⟩ := requestTry_effects env url options
  cases hb : (requestTry env url options).outcome <;>
    simp [request, Run.tryCatch, hb, hrest]

theorem config_get (options : JsObject) (key : String) :
    (config options).get key =
      (options.get key).orElse fun _ => defaultOptions.get key := by
  rw [config, get_spread]

/-- C1: when `fetch` delivers a response with `ok = false` and status `s`, `request`
rejects with an error whose message is exactly "HTTP error! status: " followed by the
decimal rendering of `s`, so the message contains that rendering; the call performs the
fetch and the console log only, and never decodes the body. -/
theorem request_rejects_with_status (env : Browser) (url : String) (options : JsObject)
    (resp : Response) (hfetch : env.fetch url (config options) = Except.ok resp)
    (hok : resp.ok = false) :
    (∃ err, (request env url options).outcome = Except.error err ∧
      err.message = "HTTP error! status: " ++ toString resp.status ∧
      includes err.message (toString resp.status) = true) ∧
    ∀ eff ∈ (request env url options).effects, eff.isDecode = false := by
  rw [request_of_http_error env url options resp hfetch hok]
  refine ⟨⟨_, rfl, rfl, ?_⟩, ?_⟩
  · exact includes_append_right _ _
  · intro eff heff
    simp only [List.mem_cons, List.mem_singleton, List.not_mem_nil, or_false] at heff
    rcases heff with h | h <;> subst h <;> rfl

/-- A 404 answer makes `request` reject with the message "HTTP error! status: 404". -/
theorem request_rejects_with_status_witness :
    (∃ err, (request (sampleBrowser (Except.ok (sampleResponse false 404 none "Not Found")))
        "/api/tickets/7" []).outcome = Except.error err ∧
      err.message = "HTTP error! status: 404" ∧
      includes err.message "404" = true) ∧
    ∀ eff ∈ (request (sampleBrowser (Except.ok (sampleResponse false 404 none "Not Found")))
        "/api/tickets/7" []).effects, eff.isDecode = false :=
  request_rejects_with_status
    (sampleBrowser (Except.ok (sampleResponse false 404 none "Not Found")))
    "/api/tickets/7" [] (sampleResponse false 404 none "Not Found") rfl rfl

/-- C2: for a response with `ok = true`, `request` hands back what parsing the body as
JSON yields when the content-type header is present and contains "application/json", and
returns the raw text body in every other case, in particular when the header is absent or
empty. -/
theorem request_decodes_by_content_type (env : Browser) (url : String) (options : JsObject)
    (resp : Response) (hfetch : env.fetch url (config options) = Except.ok resp)
    (hok : resp.ok = true) :
    ((∃ value, resp.headers "content-type" = some value ∧
        includes value "application/json" = true) →
      (request env url options).outcome = env.jsonParse resp.body) ∧
    ((¬ ∃ value, resp.headers "content-type" = some value ∧
        includes value "application/json" = true) →
      (request env url options).outcome = Except.ok (JsValue.str resp.body)) ∧
    (resp.headers "content-type" = none →
      (request env url options).outcome = Except.ok (JsValue.str resp.body)) ∧
    (resp.headers "content-type" = some "" →
      (request env url options).outcome = Except.ok (JsValue.str resp.body)) := by
  have key : (request env url options).outcome =
      if declaresJson (resp.headers "content-type") then env.jsonParse resp.body
      else Except.ok (JsValue.str resp.body) := by
    rw [request, tryCatch_requestCatch_outcome, request_of_ok env url options resp hfetch hok]
    split <;> rfl
  have text : declaresJson (resp.headers "content-type") = false →
      (request env url options).outcome = Except.ok (JsValue.str resp.body) := by
    intro h
    rw [key, h]
    rfl
  refine ⟨?_, ?_, ?_, ?_⟩
  · intro h
    rw [key, (declaresJson_iff _).2 h]
    rfl
  · intro h
    apply text
    rw [← Bool.not_eq_true, declaresJson_iff]
    exact h
  · intro h
    apply text
    rw [h]
    rfl
  · intro h
    apply text
    rw [h]
    decide

/-- A JSON answer is parsed and a plain-text answer is returned as served. -/
theorem request_decodes_by_content_type_witness :
    (request (sampleBrowser (Except.ok (sampleResponse true 200
        (some "application/json; charset=utf-8") "\x7b\"id\": 1\x7d"))) "/api/tickets"
        []).outcome = Except.ok (JsValue.obj [("id", JsValue.num 1)]) ∧
    (request (sampleBrowser (Except.ok (sampleResponse true 200 (some "text/html")
        "<p>bonjour</p>"))) "/help" []).outcome = Except.ok (JsValue.str "<p>bonjour</p>") :=
  ⟨(request_decodes_by_content_type
      (sampleBrowser (Except.ok (sampleResponse true 200
        (some "application/json; charset=utf-8") "\x7b\"id\": 1\x7d"))) "/api/tickets" []
      (sampleResponse true 200 (some "application/json; charset=utf-8") "\x7b\"id\": 1\x7d")
      rfl rfl).1 ⟨"application/json; charset=utf-8", rfl, by decide⟩,
   (request_decodes_by_content_type
      (sampleBrowser (Except.ok (sampleResponse true 200 (some "text/html")
        "<p>bonjour</p>"))) "/help" []
      (sampleResponse true 200 (some "text/html") "<p>bonjour</p>")
      rfl rfl).2.1 (by
        rintro ⟨value, hvalue, hjson⟩
        have hv : value = "text/html" := (Option.some.inj hvalue).symm
        subst hv
        revert hjson
        decide)⟩

/-- C3: when the `fetch` call fails with the error `e`, `request` fails with that same
`e` after logging it; more generally the outcome of `request` is always the outcome of
its `try` block, so a failure is never turned into a return value nor replaced. -/
theorem request_propagates_fetch_failure (env : Browser) (url : String) (options : JsObject)
    (e : JsError) (hfetch : env.fetch url (config options) = Except.error e) :
    (request env url options).outcome = Except.error e ∧
    (request env url options).effects =
      [Effect.fetch url (config options), Effect.consoleError "Erreur API:" e] ∧
    ∀ (env2 : Browser) (url2 : String) (options2 : JsObject),
      (request env2 url2 options2).outcome = (requestTry env2 url2 options2).outcome := by
  rw [request_of_fetch_error env url options e hfetch]
  exact ⟨rfl, rfl, fun env2 url2 options2 => tryCatch_requestCatch_outcome _⟩

/-- A network failure reaches the caller as the very error `fetch` failed with. -/
theorem request_propagates_fetch_failure_witness :
    (request (sampleBrowser (Except.error { name := "TypeError", message := "Failed to fetch" }))
        "/api/tickets" []).outcome =
      Except.error { name := "TypeError", message := "Failed to fetch" } :=
  (request_propagates_fetch_failure
    (sampleBrowser (Except.error { name := "TypeError", message := "Failed to fetch" }))
    "/api/tickets" [] { name := "TypeError", message := "Failed to fetch" } rfl).1

/-- C4: the configuration `request` passes to `fetch` is the shallow merge of the
defaults with the caller's options: every top-level key of `options` wins with its whole
value, so caller headers replace the default header mapping entirely, and a key the
caller leaves out keeps its default, so without caller headers the headers are exactly
the default mapping. -/
theorem config_is_shallow_merge (env : Browser) (url : String) (options : JsObject) :
    (request env url options).effects.head? = some (Effect.fetch url (config options)) ∧
    (∀ key value, options.get key = some value → (config options).get key = some value) ∧
    (∀ headers, options.get "headers" = some headers →
      (config options).get "headers" = some headers) ∧
    (options.get "headers" = none →
      (config options).get "headers" =
        some (JsValue.obj [("Content-Type", JsValue.str "application/json")])) ∧
    (∀ key, options.get key = none → (config options).get key = defaultOptions.get key) := by
  refine ⟨request_effects_head env url options, ?_, ?_, ?_, ?_⟩
  · intro key value h
    rw [config_get, h]
    rfl
  · intro headers h
    rw [config_get, h]
    rfl
  · intro h
    rw [config_get, h]
    rfl
  · intro key h
    rw [config_get, h]
    rfl

/-- Caller headers without a content type leave the sent configuration without one. -/
theorem config_is_shallow_merge_witness :
    (config [("method", JsValue.str "PATCH"),
        ("headers", JsValue.obj [("Authorization", JsValue.str "Bearer t")])]).get "headers" =
      some (JsValue.obj [("Authorization", JsValue.str "Bearer t")]) ∧
    (config [("method", JsValue.str "PATCH")]).get "headers" =
      some (JsValue.obj [("Content-Type", JsValue.str "application/json")]) :=
  ⟨(config_is_shallow_merge (sampleBrowser (Except.error (newError "offline"))) "/api"
      [("method", JsValue.str "PATCH"),
        ("headers", JsValue.obj [("Authorization", JsValue.str "Bearer t")])]).2.2.1
      (JsValue.obj [("Authorization", JsValue.str "Bearer t")]) rfl,
   (config_is_shallow_merge (sampleBrowser (Except.error (newError "offline"))) "/api"
      [("method", JsValue.str "PATCH")]).2.2.2.1 rfl⟩

/-- C5: `get`, `delete`, `post` and `put` are `request` with the method pre-filled (and,
for `post` and `put`, the body `JSON.stringify(data)`); none supplies headers, so the
configuration sent keeps the default "Content-Type: application/json" header. A `post`
answered by a JSON-declaring response whose body parses to a value returns that value, and
a `post` answered with status 500 fails with a message containing "500". -/
theorem wrappers_prefill_method (env : Browser) (url : String) (data : JsValue) :
    ApiClient.get env url = request env url [("method", JsValue.str "GET")] ∧
    ApiClient.delete env url = request env url [("method", JsValue.str "DELETE")] ∧
    post env url data =
      request env url [("method", JsValue.str "POST"), ("body", env.jsonStringify data)] ∧
    put env url data =
      request env url [("method", JsValue.str "PUT"), ("body", env.jsonStringify data)] ∧
    (∀ run ∈ [ApiClient.get env url, ApiClient.delete env url, post env url data,
        put env url data],
      ∃ sent, run.effects.head? = some (Effect.fetch url sent) ∧
        sent.get "headers" =
          some (JsValue.obj [("Content-Type", JsValue.str "application/json")])) ∧
    (∀ resp value parsed,
      env.fetch url (config [("method", JsValue.str "POST"), ("body", env.jsonStringify data)])
        = Except.ok resp →
      resp.ok = true → resp.headers "content-type" = some value →
      includes value "application/json" = true → env.jsonParse resp.body = Except.ok parsed →
      (post env url data).outcome = Except.ok parsed) ∧
    (∀ resp,
      env.fetch url (config [("method", JsValue.str "POST"), ("body", env.jsonStringify data)])
        = Except.ok resp →
      resp.ok = false → resp.status = 500 →
      ∃ err, (post env url data).outcome = Except.error err ∧
        err.message = "HTTP error! status: 500" ∧ includes err.message "500" = true) := by
  refine ⟨rfl, rfl, rfl, rfl, ?_, ?_, ?_⟩
  · intro run hrun
    simp only [List.mem_cons, List.mem_singleton, List.not_mem_nil, or_false] at hrun
    rcases hrun with h | h | h | h <;> subst h
    · exact ⟨_, request_effects_head env url _, rfl⟩
    · exact ⟨_, request_effects_head env url _, rfl⟩
    · exact ⟨_, request_effects_head env url _, rfl⟩
    · exact ⟨_, request_effects_head env url _, rfl⟩
  · intro resp value parsed hfetch hok hct hjson hparse
    rw [post, request, tryCatch_requestCatch_outcome, request_of_ok env url _ resp hfetch hok,
      (declaresJson_iff _).2 ⟨value, hct, hjson⟩]
    exact hparse
  · intro resp hfetch hok hstatus
    rw [post, request_of_http_error env url _ resp hfetch hok, hstatus]
    exact ⟨_, rfl, rfl, by decide⟩

/-- The ticket scenario: the server's JSON answer comes back parsed, and its status 500
comes back as a failure naming 500. -/
theorem wrappers_prefill_method_witness :
    (post (sampleBrowser (Except.ok (sampleResponse true 201 (some "application/json")
        "\x7b\"id\": 1\x7d"))) "/api/tickets"
        (JsValue.obj [("title", JsValue.str "X")])).outcome =
      Except.ok (JsValue.obj [("id", JsValue.num 1)]) ∧
    (∃ err, (post (sampleBrowser (Except.ok (sampleResponse false 500 none "")))
        "/api/tickets" (JsValue.obj [("title", JsValue.str "X")])).outcome = Except.error err ∧
      err.message = "HTTP error! status: 500" ∧ includes err.message "500" = true) :=
  ⟨(wrappers_prefill_method
      (sampleBrowser (Except.ok (sampleResponse true 201 (some "application/json")
        "\x7b\"id\": 1\x7d"))) "/api/tickets"
      (JsValue.obj [("title", JsValue.str "X")])).2.2.2.2.2.1
      (sampleResponse true 201 (some "application/json") "\x7b\"id\": 1\x7d")
      "application/json" (JsValue.obj [("id", JsValue.num 1)]) rfl rfl rfl (by decide) rfl,
   (wrappers_prefill_method (sampleBrowser (Except.ok (sampleResponse false 500 none "")))
      "/api/tickets" (JsValue.obj [("title", JsValue.str "X")])).2.2.2.2.2.2
      (sampleResponse false 500 none "") rfl rfl rfl⟩

end ApiClientFacts

section DebounceFacts
open debounce

theorem debounce_first_call {α : Type} (wait t0 : Nat) (c : Nat × α) (h0 : t0 ≤ c.1) :
    executedFunction wait c.2 (advanceTo later c.1 (start α t0)) =
      { now := c.1, nextTimerId := 2,
        pending := [{ id := 1, due := c.1 + wait, callback := c.2 }],
        state := { timeout := some 1, invoked := [] } } := by
  simp [executedFunction, advanceTo, runDue, start, clearTimeout, setTimeout, insertTimer, h0]

theorem debounce_next_call {α : Type} (wait now nid id : Nat) (args : α)
    (inv : List (Nat × α)) (d : Nat × α) (h1 : now ≤ d.1) (h2 : d.1 < now + wait) :
    executedFunction wait d.2 (advanceTo later d.1
        { now := now, nextTimerId := nid,
          pending := [{ id := id, due := now + wait, callback := args }],
          state := { timeout := some id, invoked := inv } }) =
      { now := d.1, nextTimerId := nid + 1,
        pending := [{ id := nid, due := d.1 + wait, callback := d.2 }],
        state := { timeout := some nid, invoked := inv } } := by
  have h3 : ¬ now + wait ≤ d.1 := by omega
  simp [executedFunction, advanceTo, runDue, clearTimeout, setTimeout, insertTimer, h1, h3]

theorem debounce_session_armed {α : Type} (wait : Nat) (inv : List (Nat × α)) :
    ∀ (rest : List (Nat × α)) (c : Nat × α) (nid id : Nat),
      closelySpaced wait (c :: rest) →
      ∃ nid2 id2,
        session wait rest
          { now := c.1, nextTimerId := nid,
            pending := [{ id := id, due := c.1 + wait, callback := c.2 }],
            state := { timeout := some id, invoked := inv } } =
          { now := ((c :: rest).getLast (List.cons_ne_nil c rest)).1, nextTimerId := nid2,
            pending := [
              { id := id2,
                due := ((c :: rest).getLast (List.cons_ne_nil c rest)).1 + wait,
                callback := ((c :: rest).getLast (List.cons_ne_nil c rest)).2 }],
            state := { timeout := some id2, invoked := inv } } := by
  intro rest
  induction rest with
  | nil =>
    intro c nid id _
    exact ⟨nid, id, rfl⟩
  | cons d rest ih =>
    intro c nid id hc
    obtain ⟨h1, h2, h3⟩ := hc
    obtain ⟨nid2, id2, h⟩ := ih d (nid + 1) nid h3
    refine ⟨nid2, id2, ?_⟩
    rw [List.getLast_cons (List.cons_ne_nil d rest)]
    rw [← h]
    simp only [session, List.foldl_cons]
    rw [debounce_next_call wait c.1 nid id c.2 inv d h1 h2]

/-- C6: after N ≥ 1 calls of the debounced function, each less than `wait` ms after the
previous one, and no further call, `func` has been invoked exactly once, at `wait` ms
after the last call and with that call's arguments; up to that moment it has not been
invoked at all. -/
theorem debounce_invokes_once_after_quiet {α : Type} (wait t0 : Nat) (first : Nat × α)
    (rest : List (Nat × α)) (hstart : t0 ≤ first.1)
    (hclose : closelySpaced wait (first :: rest)) (horizon : Nat) :
    (((first :: rest).getLast (List.cons_ne_nil first rest)).1 + wait ≤ horizon →
      (advanceTo later horizon (session wait (first :: rest) (start α t0))).state.invoked =
        [(((first :: rest).getLast (List.cons_ne_nil first rest)).1 + wait,
          ((first :: rest).getLast (List.cons_ne_nil first rest)).2)]) ∧
    (horizon < ((first :: rest).getLast (List.cons_ne_nil first rest)).1 + wait →
      (advanceTo later horizon (session wait (first :: rest) (start α t0))).state.invoked =
        []) := by
  obtain ⟨nid2, id2, h⟩ := debounce_session_armed wait [] rest first 2 1 hclose
  have hs : session wait (first :: rest) (start α t0) =
      session wait rest (executedFunction wait first.2 (advanceTo later first.1 (start α t0))) := by
    simp [session]
  rw [hs, debounce_first_call wait t0 first hstart, h]
  constructor
  · intro hle
    simp [advanceTo, runDue, later, clearTimeout, hle]
  · intro hlt
    have h3 : ¬ ((first :: rest).getLast (List.cons_ne_nil first rest)).1 + wait ≤ horizon := by
      omega
    simp [advanceTo, runDue, h3]

/-- Three keystrokes 100 ms and 250 ms apart, debounced at 300 ms: one call, for the last
keystroke, 300 ms after it. -/
theorem debounce_invokes_once_after_quiet_witness :
    (advanceTo later 1000 (session 300 [(0, "a"), (100, "ab"), (350, "abc")]
      (start String 0))).state.invoked = [(650, "abc")] :=
  (debounce_invokes_once_after_quiet 300 0 (0, "a") [(100, "ab"), (350, "abc")]
    (Nat.le_refl 0) (by simp [closelySpaced]) 1000).1 (by decide)

end DebounceFacts

section ThrottleFacts
open throttle

theorem throttle_first_call {θ α : Type} (limit t : Nat) (context : θ) (args : α) :
    wrapper limit context args (start θ α t) =
      { now := t, nextTimerId := 2,
        pending := [{ id := 1, due := t + limit, callback := () }],
        state := { inThrottle := true, invoked := [(t, context, args)] } } := by
  simp [wrapper, start, setTimeout, insertTimer]

end ThrottleFacts

section PageFacts

theorem classContains_remove (classes : List String) (token : String) :
    classContains (classRemove classes token) token = false := by
  simp [classContains, classRemove]

theorem classContains_toggle (classes : List String) (token : String) :
    classContains (classToggle classes token) token = !classContains classes token := by
  by_cases h : token ∈ classes
  · have h2 : classes.contains token = true := by simpa using h
    simp only [classToggle, h2, if_true]
    rw [classContains_remove]
    simp [classContains, h]
  · simp [classToggle, classContains, h]

theorem classContains_add (classes : List String) (token : String) :
    classContains (classAdd classes token) token = true := by
  by_cases h : token ∈ classes <;> simp [classAdd, classContains, h]

/-- C8, amended: with both the toggle and the panel present: a resize to a width above 768
leaves the sidebar not shown and a resize to a width of at most 768 leaves its classes
unchanged; a click outside both panel and toggle at a width of at most 768 leaves it not
shown; a click inside the panel and outside the toggle changes nothing at any width; a
click outside both at a width above 768 changes nothing; a click inside the toggle flips
the shown state exactly once at any width. If either element is absent, `initSidebar`
installs no listener and no event changes the page. -/
theorem sidebar_transitions (p : SidebarPage) :
    (p.sidebarToggle = true → p.sidebar.isSome = true →
      (∀ width, 768 < width →
        (dispatch (initSidebar p) (PageEvent.resize width) p).shown = false) ∧
      (∀ width, width ≤ 768 →
        (dispatch (initSidebar p) (PageEvent.resize width) p).sidebar = p.sidebar) ∧
      (p.innerWidth ≤ 768 →
        (dispatch (initSidebar p) (PageEvent.click false false) p).shown = false) ∧
      dispatch (initSidebar p) (PageEvent.click true false) p = p ∧
      (768 < p.innerWidth →
        dispatch (initSidebar p) (PageEvent.click false false) p = p) ∧
      (∀ inSidebar,
        (dispatch (initSidebar p) (PageEvent.click inSidebar true) p).shown = !p.shown)) ∧
    ((p.sidebarToggle = false ∨ p.sidebar = none) →
      initSidebar p = [] ∧ ∀ ev, (dispatch (initSidebar p) ev p).sidebar = p.sidebar) := by
  obtain ⟨toggle, sidebar, innerWidth⟩ := p
  constructor
  · intro ht hs
    simp only at ht
    subst ht
    cases sidebar with
    | none => simp at hs
    | some classes =>
      refine ⟨?_, ?_, ?_, ?_, ?_, ?_⟩
      · intro width hw
        simp [dispatch, initSidebar, SidebarListener.handle, SidebarPage.onSidebar,
          SidebarPage.shown, hw, classContains_remove]
      · intro width hw
        have : ¬ 768 < width := by omega
        simp [dispatch, initSidebar, SidebarListener.handle, this]
      · intro hw
        simp only at hw
        simp [dispatch, initSidebar, SidebarListener.handle, SidebarPage.onSidebar,
          SidebarPage.shown, hw, classContains_remove]
      · by_cases hw : innerWidth ≤ 768 <;>
          simp [dispatch, initSidebar, SidebarListener.handle, hw]
      · intro hw
        simp only at hw
        have : ¬ innerWidth ≤ 768 := by omega
        simp [dispatch, initSidebar, SidebarListener.handle, this]
      · intro inSidebar
        by_cases hw : innerWidth ≤ 768 <;>
          simp [dispatch, initSidebar, SidebarListener.handle, SidebarPage.onSidebar,
            SidebarPage.shown, hw, classContains_toggle]
  · intro h
    have hinit : initSidebar ⟨toggle, sidebar, innerWidth⟩ = [] := by
      rcases h with h | h
      · simp only at h
        simp [initSidebar, h]
      · simp only at h
        simp [initSidebar, h]
    refine ⟨hinit, ?_⟩
    intro ev
    rw [hinit]
    cases ev <;> simp [dispatch]

/-- On a phone-sized page with the sidebar shown, a click in the panel keeps it shown, a
click elsewhere hides it, and a resize to 1024 hides it. -/
theorem sidebar_transitions_witness :
    dispatch (initSidebar (samplePage ["sidebar", "show"] 500)) (PageEvent.click true false)
      (samplePage ["sidebar", "show"] 500) = samplePage ["sidebar", "show"] 500 ∧
    (dispatch (initSidebar (samplePage ["sidebar", "show"] 500)) (PageEvent.click false false)
      (samplePage ["sidebar", "show"] 500)).shown = false ∧
    (dispatch (initSidebar (samplePage ["sidebar", "show"] 500)) (PageEvent.resize 1024)
      (samplePage ["sidebar", "show"] 500)).shown = false :=
  ⟨((sidebar_transitions (samplePage ["sidebar", "show"] 500)).1 rfl rfl).2.2.2.1,
    ((sidebar_transitions (samplePage ["sidebar", "show"] 500)).1 rfl rfl).2.2.1 (by decide),
    ((sidebar_transitions (samplePage ["sidebar", "show"] 500)).1 rfl rfl).1 1024
      (by decide)⟩

/-- C8 as stated fails where the toggle sits inside the panel: a click on it has its
target inside the panel, yet the hidden sidebar becomes shown. -/
theorem sidebar_click_in_panel_on_toggle_flips :
    (samplePage ["sidebar"] 1024).shown = false ∧
    (dispatch (initSidebar (samplePage ["sidebar"] 1024)) (PageEvent.click true true)
      (samplePage ["sidebar"] 1024)).shown = true := by
  decide

theorem filter_fresh (body : List Element) (node : Nat) (h : ∀ e ∈ body, e.id < node) :
    body.filter (fun e => e.id != node) = body := by
  rw [List.filter_eq_self]
  intro e he
  have := h e he
  simp only [bne_iff_ne, ne_eq]
  omega

theorem hasParent_remove (p : Page) (node : Nat) : (p.remove node).hasParent node = false := by
  simp [Page.hasParent, Page.remove]

/-- C10: a submit event on a form flagged for validation is cancelled (default action
prevented and propagation stopped) when the form's validity check fails, and is left
untouched when the check passes; in both cases the form carries the class
"was-validated" afterwards. -/
theorem submit_validation (form : Form) (event : SubmitEvent)
    (hflag : needsValidation form = true) :
    (form.valid = false →
      (submit form event).2.defaultPrevented = true ∧
      (submit form event).2.propagationStopped = true ∧
      classContains (submit form event).1.classList "was-validated" = true) ∧
    (form.valid = true → (submit form event).2 = event) ∧
    classContains (submit form event).1.classList "was-validated" = true := by
  refine ⟨?_, ?_, ?_⟩
  · intro hv
    simp [submit, hflag, submitListener, hv, classContains_add]
  · intro hv
    simp [submit, hflag, submitListener, hv]
  · simp [submit, hflag, submitListener, classContains_add]

/-- An invalid form's submit is cancelled and the form is marked validated; a valid
form's submit goes through as it came. -/
theorem submit_validation_witness :
    ((submit { classList := ["needs-validation"], valid := false }
        { defaultPrevented := false, propagationStopped := false }).2.defaultPrevented = true ∧
      (submit { classList := ["needs-validation"], valid := false }
        { defaultPrevented := false, propagationStopped := false }).2.propagationStopped = true ∧
      classContains (submit { classList := ["needs-validation"], valid := false }
        { defaultPrevented := false, propagationStopped := false }).1.classList
        "was-validated" = true) ∧
    (submit { classList := ["needs-validation"], valid := true }
      { defaultPrevented := false, propagationStopped := false }).2 =
      { defaultPrevented := false, propagationStopped := false } :=
  ⟨(submit_validation { classList := ["needs-validation"], valid := false }
      { defaultPrevented := false, propagationStopped := false } (by decide)).1 rfl,
    (submit_validation { classList := ["needs-validation"], valid := true }
      { defaultPrevented := false, propagationStopped := false } (by decide)).2.1 rfl⟩

theorem alertElement_id (node : Nat) (message type : String) :
    (alertElement node message type).id = node := rfl

theorem hasParent_fresh (body : List Element) (next node : Nat) (h : ∀ e ∈ body, e.id < node) :
    Page.hasParent { nextNode := next, body := body } node = false := by
  simp only [Page.hasParent, List.any_eq_false, beq_iff_eq]
  intro e he
  have := h e he
  omega

/-- C9: `showNotification` appends exactly one new element to the body at once and
schedules one timer, due 5000 ms later, for it. When that timer's callback runs, it
removes the element if the element still has a parent and changes nothing otherwise; after
it the element is detached in both cases, and every other node stays where it was. In
particular a notification dismissed by hand before the 5000 ms are over is simply gone
when the timer has fired, as is one that was left alone. -/
theorem notification_auto_removal (message : String) (type : Option String)
    (w : World Page Nat) (hwf : w.state.wellFormed) :
    (showNotification message type w).state.body =
      w.state.body ++ [alertElement w.state.nextNode message (type.getD "info")] ∧
    (∀ e ∈ w.state.body, e.id ≠ w.state.nextNode) ∧
    (showNotification message type w).now = w.now ∧
    (showNotification message type w).pending =
      insertTimer { id := w.nextTimerId, due := w.now + 5000, callback := w.state.nextNode }
        w.pending ∧
    (∀ v : World Page Nat, v.state.hasParent w.state.nextNode = true →
      autoRemove w.state.nextNode v = { v with state := v.state.remove w.state.nextNode }) ∧
    (∀ v : World Page Nat, v.state.hasParent w.state.nextNode = false →
      autoRemove w.state.nextNode v = v) ∧
    (∀ v : World Page Nat, (autoRemove w.state.nextNode v).state.hasParent w.state.nextNode
      = false) ∧
    (∀ (v : World Page Nat) (e : Element), e ∈ v.state.body → e.id ≠ w.state.nextNode →
      e ∈ (autoRemove w.state.nextNode v).state.body) ∧
    (w.pending = [] → ∀ t horizon, t < w.now + 5000 → w.now + 5000 ≤ horizon →
      (advanceTo autoRemove horizon (dismiss w.state.nextNode
        (advanceTo autoRemove t (showNotification message type w)))).state.body
        = w.state.body ∧
      (advanceTo autoRemove horizon (showNotification message type w)).state.body
        = w.state.body) := by
  obtain ⟨now, nid, pending, nextNode, body⟩ := w
  have hfresh : ∀ e ∈ body, e.id < nextNode := hwf
  refine ⟨rfl, ?_, rfl, rfl, ?_, ?_, ?_, ?_, ?_⟩
  · intro e he
    have := hfresh e he
    simp only
    omega
  · intro v hv
    simp only at hv
    simp [autoRemove, hv]
  · intro v hv
    simp only at hv
    simp [autoRemove, hv]
  · intro v
    by_cases hv : v.state.hasParent nextNode = true
    · simp [autoRemove, hv, hasParent_remove]
    · simp only [autoRemove, hv]
      simpa using hv
  · intro v e he hne
    simp only at hne
    by_cases hv : v.state.hasParent nextNode = true
    · simp [autoRemove, hv, Page.remove, he, hne]
    · simp [autoRemove, hv, he]
  · intro hp t horizon ht hh
    simp only at hp ht hh
    subst hp
    have h1 : ¬ now + 5000 ≤ t := by omega
    have h2 : Page.hasParent { nextNode := nextNode + 1, body := body } nextNode = false :=
      hasParent_fresh body _ nextNode hfresh
    have h3 : Page.hasParent
        { nextNode := nextNode + 1,
          body := body ++ [alertElement nextNode message (type.getD "info")] }
        nextNode = true := by
      simp [Page.hasParent, alertElement_id]
    constructor
    · simp [showNotification, setTimeout, insertTimer, advanceTo, runDue, dismiss, autoRemove,
        Page.remove, alertElement_id, h1, hh, h2, filter_fresh body nextNode hfresh]
    · simp [showNotification, setTimeout, insertTimer, advanceTo, runDue, autoRemove,
        Page.remove, hh, h3, alertElement_id, filter_fresh body nextNode hfresh]

/-- A notification shown at 1000 ms and closed by hand at 3000 ms: when its timer has
fired at 6000 ms the body holds the two original elements, untouched; the same holds for
a notification nobody closed. -/
theorem notification_auto_removal_witness :
    (advanceTo autoRemove 6000 (dismiss 3
      (advanceTo autoRemove 3000 (showNotification "Ticket created" (some "success")
        sampleWorld)))).state.body = sampleWorld.state.body ∧
    (advanceTo autoRemove 6000 (showNotification "Ticket created" (some "success")
      sampleWorld)).state.body = sampleWorld.state.body :=
  (notification_auto_removal "Ticket created" (some "success") sampleWorld
    (by simp [Page.wellFormed, sampleWorld])).2.2.2.2.2.2.2.2 rfl 3000 6000
    (by decide) (by decide)

end PageFacts

end ChatbotSAV
